import Mathlib

/-!
Verification of the metric-computation engine of the Technical-Debt-Manager
repository (`backend/app/analysis/parser.py`, class `CodeParser`).

The engine parses Python source with tree-sitter and derives metrics from the
resulting concrete syntax tree.  We shallowly embed the engine:

* `Node` mirrors a tree-sitter node: a kind string (`type`), the source slice
  (`text`, kept only where the Python code reads it: operand leaves, keyword
  leaves and string literals), and the list of children (named and anonymous,
  exactly as tree-sitter exposes them via `node.children` / the tree cursor).
* Each private method of `CodeParser` becomes a Lean function over `Node`
  (the mutable-accumulator traversals become structurally recursive sums,
  Python floats become real numbers, `round(x, 2)` becomes `round2`).
* `analyze` takes the source string together with the tree that tree-sitter
  produces for it; the empty-input guard only looks at the string, exactly as
  in the Python code.
* Concrete parse trees for the concrete sources appearing in the claims are
  transcribed from the tree-sitter-python grammar output for those sources.
-/

set_option maxHeartbeats 1000000

/-- A tree-sitter syntax node: kind string, source text (where relevant to the
engine), and the full child list in document order. -/
inductive Node where
  | mk (type : String) (text : Option String) (children : List Node)
deriving Repr

def Node.type : Node → String
  | .mk t _ _ => t

def Node.text : Node → Option String
  | .mk _ x _ => x

def Node.children : Node → List Node
  | .mk _ _ cs => cs

/-- `CONTROL_FLOW_NODES` from `parser.py`: node kinds that add to both the
legacy complexity score and cognitive complexity. -/
def CONTROL_FLOW_NODES : List String :=
  ["if_statement", "for_statement", "while_statement", "try_statement",
   "except_clause", "with_statement", "match_statement", "else_clause",
   "elif_clause"]

/-- `OPERATOR_NODES` from `parser.py`: node kinds counted as Halstead
operators. -/
def OPERATOR_NODES : List String :=
  ["binary_operator", "unary_operator", "comparison_operator",
   "boolean_operator", "augmented_assignment", "assignment", "not_operator"]

/-- `OPERATOR_KEYWORDS` from `parser.py`: keyword texts counted as Halstead
operators when a node of kind `keyword` carries them. -/
def OPERATOR_KEYWORDS : List String :=
  ["if", "else", "elif", "for", "while", "try", "except", "finally",
   "with", "return", "yield", "raise", "break", "continue", "pass",
   "import", "from", "as", "def", "class", "lambda", "and", "or", "not",
   "in", "is", "await", "async", "match", "case"]

/-- `OPERAND_NODES` from `parser.py`: node kinds counted as Halstead
operands. -/
def OPERAND_NODES : List String :=
  ["identifier", "integer", "float", "string", "true", "false", "none"]

/-- `ENCAPSULATION_NODES` from `_calculate_cognitive_complexity`: kinds whose
block children do not increment nesting depth. -/
def ENCAPSULATION_NODES : List String :=
  ["function_definition", "class_definition", "module"]

mutual

/-- Total number of nodes in a subtree (what a full tree walk would count). -/
def totalNodes : Node → Nat
  | .mk _ _ cs => 1 + totalNodesList cs

/-- Total number of nodes in a forest. -/
def totalNodesList : List Node → Nat
  | [] => 0
  | c :: cs => totalNodes c + totalNodesList cs

end

mutual

/-- Number of nodes in a subtree whose kind is in `CONTROL_FLOW_NODES`. -/
def controlFlowTotal : Node → Nat
  | .mk t _ cs =>
    (if t ∈ CONTROL_FLOW_NODES then 1 else 0) + controlFlowTotalList cs

/-- Number of control-flow nodes in a forest. -/
def controlFlowTotalList : List Node → Nat
  | [] => 0
  | c :: cs => controlFlowTotal c + controlFlowTotalList cs

end

/-- The node sequence visited by the cursor loop in `CodeParser.analyze`
(lines 349-366 of `parser.py`).  The loop visits the current node, then moves
to its first child if one exists, otherwise to its next sibling if one
exists; otherwise it enters the inner backtracking loop.  Because the inner
loop is `while True:` with an `else: continue` clause, the `else` never runs
(a `while True` loop only exits through `break`), so the trailing `break`
terminates the outer loop as soon as the cursor has to backtrack — whether or
not an ancestor still had an unvisited sibling.  The second argument is the
list of following siblings of the current node. -/
def cursorVisit : Node → List Node → List Node
  | .mk t x (c :: cs), _ => .mk t x (c :: cs) :: cursorVisit c cs
  | .mk t x [], s :: ss => .mk t x [] :: cursorVisit s ss
  | .mk t x [], [] => [.mk t x []]
termination_by n sibs => totalNodes n + totalNodesList sibs
decreasing_by
  all_goals simp [totalNodes, totalNodesList] <;> omega

/-- `node_count` as computed by the cursor loop in `analyze`. -/
def cursorNodeCount (root : Node) : Nat :=
  (cursorVisit root []).length

/-- `complexity_score` as computed by the cursor loop in `analyze`: the
number of visited nodes whose kind is in `CONTROL_FLOW_NODES`. -/
def cursorComplexityScore (root : Node) : Nat :=
  ((cursorVisit root []).filter (fun n => n.type ∈ CONTROL_FLOW_NODES)).length

mutual

/-- The recursive `traverse` of `_calculate_cognitive_complexity`: a node
contributes `1 + nesting_depth` when its kind is in `CONTROL_FLOW_NODES`, and
its children are traversed by `cogChildren`. -/
def cogTraverse : Node → Nat → Nat
  | .mk t _ cs, depth =>
    (if t ∈ CONTROL_FLOW_NODES then 1 + depth else 0) + cogChildren t cs depth

/-- Child traversal of `_calculate_cognitive_complexity`: a `block` child of
a non-encapsulation node is entered at depth `+1`; every other child keeps
the current depth.  The first argument is the parent's kind. -/
def cogChildren : String → List Node → Nat → Nat
  | _, [], _ => 0
  | pt, c :: cs, depth =>
    (if c.type = "block" then
       (if pt ∈ ENCAPSULATION_NODES then cogTraverse c depth
        else cogTraverse c (depth + 1))
     else cogTraverse c depth) + cogChildren pt cs depth

end

/-- `CodeParser._calculate_cognitive_complexity`: the traversal starts at the
root with nesting depth 0. -/
def calculate_cognitive_complexity (root : Node) : Nat :=
  cogTraverse root 0

/-- Depth at which a child is traversed, as a function of the parent kind,
the child, and the current depth (specification-side restatement of the
branching inside `cogChildren`). -/
def childDepth (pt : String) (c : Node) (depth : Nat) : Nat :=
  if c.type = "block" ∧ pt ∉ ENCAPSULATION_NODES then depth + 1 else depth

mutual

/-- Specification-side flattening: every node of the subtree paired with the
nesting depth at which the cognitive-complexity walker visits it. -/
def nodesWithDepth : Node → Nat → List (String × Nat)
  | .mk t _ cs, depth => (t, depth) :: nodesWithDepthList t cs depth

/-- Forest version of `nodesWithDepth`; the first argument is the parent
kind. -/
def nodesWithDepthList : String → List Node → Nat → List (String × Nat)
  | _, [], _ => []
  | pt, c :: cs, depth =>
    nodesWithDepth c (childDepth pt c depth) ++ nodesWithDepthList pt cs depth

end

mutual

/-- Operator sequence collected by the traversal in
`_calculate_halstead_metrics`, in visit order: the node kind for kinds in
`OPERATOR_NODES`, else the node text for `keyword` nodes with non-empty text
in `OPERATOR_KEYWORDS`. -/
def halsteadOperators : Node → List String
  | .mk t x cs =>
    (if t ∈ OPERATOR_NODES then [t]
     else if t = "keyword" then
       (match x with
        | some k => if k ≠ "" ∧ k ∈ OPERATOR_KEYWORDS then [k] else []
        | none => [])
     else []) ++ halsteadOperatorsList cs

/-- Forest version of `halsteadOperators`. -/
def halsteadOperatorsList : List Node → List String
  | [] => []
  | c :: cs => halsteadOperators c ++ halsteadOperatorsList cs

end

mutual

/-- Operand sequence collected by the traversal in
`_calculate_halstead_metrics`, in visit order: for kinds in `OPERAND_NODES`,
the node text when it is present and non-empty, else the node kind. -/
def halsteadOperands : Node → List String
  | .mk t x cs =>
    (if t ∈ OPERAND_NODES then
       [match x with
        | some s => if s ≠ "" then s else t
        | none => t]
     else []) ++ halsteadOperandsList cs

/-- Forest version of `halsteadOperands`. -/
def halsteadOperandsList : List Node → List String
  | [] => []
  | c :: cs => halsteadOperands c ++ halsteadOperandsList cs

end

/-- Python's `round(x, 2)`: round to two decimal places (idealised over the
reals, as are all the floating-point computations of `parser.py`). -/
noncomputable def round2 (x : ℝ) : ℝ :=
  ((round (100 * x) : ℤ) : ℝ) / 100

/-- `CodeParser._calculate_halstead_metrics`: returns the (unrounded) volume
together with the total operator and operand counts.  Volume is
`(N1 + N2) * log2(n1 + n2)` with `N` the sequence lengths and `n` the
distinct-value counts, and `0` when the vocabulary `n1 + n2` is `0`. -/
noncomputable def calculate_halstead_metrics (root : Node) : ℝ × Nat × Nat :=
  let operators := halsteadOperators root
  let operands := halsteadOperands root
  let n1 := operators.length
  let n2 := operands.length
  let unique_n1 := operators.dedup.length
  let unique_n2 := operands.dedup.length
  let vocabulary := unique_n1 + unique_n2
  if vocabulary = 0 then (0, n1, n2)
  else (((n1 + n2 : Nat) : ℝ) * Real.logb 2 (vocabulary : ℝ), n1, n2)

/-- `CodeParser._calculate_maintainability_index`: floors the inputs at 1,
applies the maintainability-index formula, normalises to a 0-100 scale,
clamps, and rounds to two decimals. -/
noncomputable def calculate_maintainability_index
    (halstead_volume : ℝ) (cyclomatic_complexity : Nat)
    (lines_of_code : Nat) : ℝ :=
  let v : ℝ := max halstead_volume 1
  let loc : Nat := max lines_of_code 1
  let cc : Nat := max cyclomatic_complexity 1
  let mi_raw : ℝ :=
    171 - 5.2 * Real.log v - 0.23 * (cc : ℝ) - 16.2 * Real.log (loc : ℝ)
  let mi_normalized : ℝ := max 0 (mi_raw * 100 / 171)
  round2 (min 100 mi_normalized)

/-- Modelled from the spec (section 4.6): `clamp(x, lo, hi)`. -/
def clamp (x lo hi : ℝ) : ℝ :=
  max lo (min hi x)

/-- Modelled from the spec (section 4.6): the maintainability-index formula
as the specification words it — `v = max(volume, 1.0)`, `loc = max(LOC, 1)`,
`cc = max(complexity_score, 1)`,
`raw = 171 - 5.2*ln(v) - 0.23*cc - 16.2*ln(loc)`,
`index = clamp(raw * 100 / 171, 0, 100)` rounded to 2 decimals. -/
noncomputable def miSpecFormula (volume : ℝ) (cc : Nat) (loc : Nat) : ℝ :=
  round2 (clamp ((171 - 5.2 * Real.log (max volume 1)
    - 0.23 * ((max cc 1 : Nat) : ℝ)
    - 16.2 * Real.log ((max loc 1 : Nat) : ℝ)) * 100 / 171) 0 100)

/-- Whitespace characters stripped by Python's `str.strip()` (the ASCII set;
all sources in the claims are ASCII). -/
def isPySpace (c : Char) : Bool :=
  c = ' ' || c = '\t' || c = '\n' || c = '\r' || c = '\x0b' || c = '\x0c'

/-- Python's `str.strip()`. -/
def pyStrip (s : String) : String :=
  String.mk (((s.data.dropWhile isPySpace).reverse.dropWhile isPySpace).reverse)

/-- Python's `str.startswith` (over code points, as in Python). -/
def strStarts (s p : String) : Bool :=
  p.data.isPrefixOf s.data

/-- Python's `str.endswith` (over code points, as in Python). -/
def strEnds (s p : String) : Bool :=
  p.data.reverse.isPrefixOf s.data.reverse

/-- Python's slicing `s[n:]` (over code points). -/
def strDrop (s : String) (n : Nat) : String :=
  String.mk (s.data.drop n)

/-- Python's slicing `s[:-n]` for strings of length at least `n`, i.e. drop
the last `n` code points (empty result when fewer remain). -/
def strDropRight (s : String) (n : Nat) : String :=
  String.mk (s.data.take (s.data.length - n))

/-- Python's `str.split` with a single-character separator, over a character
list: `split [] = [[]]`, and the separator ends the current piece. -/
def splitOnChar (sep : Char) : List Char → List (List Char)
  | [] => [[]]
  | c :: cs =>
    let rest := splitOnChar sep cs
    if c = sep then [] :: rest
    else
      match rest with
      | h :: t => (c :: h) :: t
      | [] => [[c]]

/-- The guard of `CodeParser.analyze`:
`not source_code or not source_code.strip()`. -/
def isBlankSource (source_code : String) : Bool :=
  source_code.isEmpty || (pyStrip source_code).isEmpty

/-- `CodeParser._count_lines_of_code`: split on newlines, count lines whose
stripped form is non-empty and does not start with `#`, then floor at 1. -/
def count_lines_of_code (source_code : String) : Nat :=
  let lines := (splitOnChar '\n' source_code.data).map String.mk
  let loc := lines.countP fun line =>
    let stripped := pyStrip line
    !stripped.isEmpty && !(strStarts stripped "#")
  max loc 1

/-- Quote stripping of `_extract_module_docstring`: remove one matching pair
of enclosing delimiters, triple-double first, then triple-single, double,
single; always strip surrounding whitespace afterwards. -/
def stripDocQuotes (text : String) : String :=
  if strStarts text "\"\"\"" && strEnds text "\"\"\"" then
    pyStrip (strDropRight (strDrop text 3) 3)
  else if strStarts text "'''" && strEnds text "'''" then
    pyStrip (strDropRight (strDrop text 3) 3)
  else if strStarts text "\"" && strEnds text "\"" then
    pyStrip (strDropRight (strDrop text 1) 1)
  else if strStarts text "'" && strEnds text "'" then
    pyStrip (strDropRight (strDrop text 1) 1)
  else
    pyStrip text

/-- Inner loop of `_extract_module_docstring` over the children of the first
expression statement: the first `string` child with non-empty text yields the
docstring. -/
def docstringScan : List Node → Option String
  | [] => none
  | sub :: rest =>
    if sub.type = "string" then
      match sub.text with
      | some t => if t ≠ "" then some (stripDocQuotes t) else docstringScan rest
      | none => docstringScan rest
    else docstringScan rest

/-- Docstring extracted from one expression statement (the loop body of
`_extract_module_docstring` for an `expression_statement` child, after which
the Python loop unconditionally breaks). -/
def docstringOfExprStmt (child : Node) : Option String :=
  docstringScan child.children

/-- Outer loop of `_extract_module_docstring` over the module's top-level
statements: comments are skipped, the first expression statement is
inspected (and nothing after it), any other first statement yields none. -/
def docstringLoop : List Node → Option String
  | [] => none
  | child :: rest =>
    if child.type = "expression_statement" then docstringOfExprStmt child
    else if child.type = "comment" then docstringLoop rest
    else none

/-- `CodeParser._extract_module_docstring`. -/
def extract_module_docstring (root : Node) : Option String :=
  docstringLoop root.children

/-- The record returned by `CodeParser.analyze` (the Python method returns a
dict with exactly these keys). -/
structure AnalysisResult where
  node_count : Nat
  complexity_score : Nat
  cognitive_complexity : Nat
  halstead_volume : ℝ
  maintainability_index : ℝ
  sqale_debt_hours : ℝ
  lines_of_code : Nat
  description : Option String

/-- The fixed sentinel record `analyze` returns for empty or whitespace-only
input. -/
def emptyResult : AnalysisResult :=
  { node_count := 0
    complexity_score := 0
    cognitive_complexity := 0
    halstead_volume := 0
    maintainability_index := 100
    sqale_debt_hours := 0
    lines_of_code := 0
    description := none }

/-- `CodeParser.analyze`.  The tree-sitter parse of the source is passed in
as `root`; the blank-input guard inspects only the string, and the sentinel
branch never touches the tree, exactly as in the Python code. -/
noncomputable def analyze (source_code : String) (root : Node) :
    AnalysisResult :=
  if isBlankSource source_code then emptyResult
  else
    let node_count := cursorNodeCount root
    let complexity_score := cursorComplexityScore root
    let cognitive_complexity := calculate_cognitive_complexity root
    let halstead_volume := (calculate_halstead_metrics root).1
    let lines_of_code := count_lines_of_code source_code
    let maintainability_index :=
      calculate_maintainability_index halstead_volume complexity_score
        lines_of_code
    let sqale_debt_hours := round2 ((cognitive_complexity : ℝ) * 0.15)
    { node_count := node_count
      complexity_score := complexity_score
      cognitive_complexity := cognitive_complexity
      halstead_volume := round2 halstead_volume
      maintainability_index := maintainability_index
      sqale_debt_hours := sqale_debt_hours
      lines_of_code := lines_of_code
      description := extract_module_docstring root }

/-- Anonymous (token) node: tree-sitter gives such nodes their token as both
kind and text. -/
def tok (t : String) : Node := Node.mk t (some t) []

/-- Identifier node with its text. -/
def identNode (s : String) : Node := Node.mk "identifier" (some s) []

/-- Source of the repository's own test `test_simple_complexity`
(`backend/tests/test_parser.py`), used as the failing input for the cursor
loop. -/
def srcCheck : String :=
  "def check(x):\n    if x > 0:\n        return True\n    return False"

/-- Tree-sitter parse tree of `srcCheck` (24 nodes, one `if_statement`). -/
def treeCheck : Node :=
  .mk "module" none [
    .mk "function_definition" none [
      tok "def",
      identNode "check",
      .mk "parameters" none [tok "(", identNode "x", tok ")"],
      tok ":",
      .mk "block" none [
        .mk "if_statement" none [
          tok "if",
          .mk "comparison_operator" none
            [identNode "x", tok ">", .mk "integer" (some "0") []],
          tok ":",
          .mk "block" none [
            .mk "return_statement" none
              [tok "return", .mk "true" (some "True") []]]],
        .mk "return_statement" none
          [tok "return", .mk "false" (some "False") []]]]]

/-- Source of the spec's concrete scenario B. -/
def srcB : String :=
  "def f():\n    if x:\n        for i in y:\n            pass\n    else:\n        pass"

/-- Tree-sitter parse tree of `srcB`. -/
def treeB : Node :=
  .mk "module" none [
    .mk "function_definition" none [
      tok "def",
      identNode "f",
      .mk "parameters" none [tok "(", tok ")"],
      tok ":",
      .mk "block" none [
        .mk "if_statement" none [
          tok "if",
          identNode "x",
          tok ":",
          .mk "block" none [
            .mk "for_statement" none [
              tok "for",
              identNode "i",
              tok "in",
              identNode "y",
              tok ":",
              .mk "block" none [.mk "pass_statement" none [tok "pass"]]]],
          .mk "else_clause" none [
            tok "else",
            tok ":",
            .mk "block" none [.mk "pass_statement" none [tok "pass"]]]]]]]

/-- Three bare identifiers on three lines. -/
def srcXYZ : String := "x\ny\nz"

/-- Tree-sitter parse tree of `srcXYZ`. -/
def treeXYZ : Node :=
  .mk "module" none [
    .mk "expression_statement" none [identNode "x"],
    .mk "expression_statement" none [identNode "y"],
    .mk "expression_statement" none [identNode "z"]]

/-- Source of the spec's concrete scenario C: a module whose first statement
is a docstring. -/
def srcC : String := "\"\"\"Handles widgets.\"\"\""

/-- Tree-sitter parse tree of `srcC`: the `string` node carries the full
quoted text and has `string_start`/`string_content`/`string_end` children. -/
def treeC : Node :=
  .mk "module" none [
    .mk "expression_statement" none [
      .mk "string" (some "\"\"\"Handles widgets.\"\"\"") [
        .mk "string_start" (some "\"\"\"") [],
        .mk "string_content" (some "Handles widgets.") [],
        .mk "string_end" (some "\"\"\"") []]]]

/-- Tree-sitter parse tree of an empty or whitespace-only source: a bare
module node (used only where `analyze` ignores the tree anyway). -/
def emptyModule : Node := .mk "module" none []

/-- Mutual induction principle for `Node` and forests of nodes. -/
theorem node_mutual_ind {P : Node → Prop} {Q : List Node → Prop}
    (hmk : ∀ t x cs, Q cs → P (Node.mk t x cs))
    (hnil : Q [])
    (hcons : ∀ c cs, P c → Q cs → Q (c :: cs)) :
    (∀ n, P n) ∧ (∀ l, Q l) := by
  have hP : ∀ n, P n := fun n => @Node.rec P Q hmk hnil hcons n
  refine ⟨hP, ?_⟩
  intro l
  induction l with
  | nil => exact hnil
  | cons c cs ih => exact hcons c cs (hP c) ih

/-- Unfolding of `analyze` on blank input. -/
theorem analyze_blank (s : String) (r : Node) (h : isBlankSource s = true) :
    analyze s r = emptyResult := by
  unfold analyze
  rw [if_pos h]

/-- Unfolding of `analyze` on non-blank input. -/
theorem analyze_not_blank (s : String) (r : Node)
    (h : isBlankSource s = false) :
    analyze s r =
      { node_count := cursorNodeCount r
        complexity_score := cursorComplexityScore r
        cognitive_complexity := calculate_cognitive_complexity r
        halstead_volume := round2 (calculate_halstead_metrics r).1
        maintainability_index :=
          calculate_maintainability_index (calculate_halstead_metrics r).1
            (cursorComplexityScore r) (count_lines_of_code s)
        sqale_debt_hours :=
          round2 ((calculate_cognitive_complexity r : ℝ) * 0.15)
        lines_of_code := count_lines_of_code s
        description := extract_module_docstring r } := by
  unfold analyze
  rw [if_neg (by simp [h])]

theorem cf_le_cog_all :
    (∀ n, ∀ d, controlFlowTotal n ≤ cogTraverse n d) ∧
    (∀ l, ∀ pt d, controlFlowTotalList l ≤ cogChildren pt l d) := by
  refine @node_mutual_ind
    (fun n => ∀ d, controlFlowTotal n ≤ cogTraverse n d)
    (fun l => ∀ pt d, controlFlowTotalList l ≤ cogChildren pt l d)
    ?_ ?_ ?_
  · intro t x cs hQ d
    simp only [controlFlowTotal, cogTraverse]
    have h1 := hQ t d
    by_cases ht : t ∈ CONTROL_FLOW_NODES
    · simp only [if_pos ht]; omega
    · simp only [if_neg ht]; omega
  · intro pt d
    simp [controlFlowTotalList, cogChildren]
  · intro c cs hP hQ pt d
    simp only [controlFlowTotalList, cogChildren]
    have h1 := hQ pt d
    have h2 : controlFlowTotal c ≤
        (if c.type = "block" then
          (if pt ∈ ENCAPSULATION_NODES then cogTraverse c d
           else cogTraverse c (d + 1))
         else cogTraverse c d) := by
      split_ifs <;> apply hP
    omega

theorem cursor_filter_le (n : Node) (sibs : List Node) :
    ((cursorVisit n sibs).filter
      (fun m => m.type ∈ CONTROL_FLOW_NODES)).length ≤
      controlFlowTotal n + controlFlowTotalList sibs := by
  induction n, sibs using cursorVisit.induct with
  | case1 t x c cs sibs ih =>
    rw [cursorVisit]
    simp only [List.filter_cons]
    have hcf : controlFlowTotal (Node.mk t x (c :: cs)) =
        (if t ∈ CONTROL_FLOW_NODES then 1 else 0) +
          (controlFlowTotal c + controlFlowTotalList cs) := by
      simp [controlFlowTotal, controlFlowTotalList]
    split_ifs with h <;> simp only [Node.type] at * <;>
      simp_all [controlFlowTotal, controlFlowTotalList] <;> omega
  | case2 t x s ss ih =>
    rw [cursorVisit]
    simp only [List.filter_cons]
    split_ifs with h <;> simp only [Node.type] at * <;>
      simp_all [controlFlowTotal, controlFlowTotalList] <;> omega
  | case3 t x =>
    rw [cursorVisit]
    simp only [List.filter_cons, List.filter_nil]
    split_ifs with h <;>
      simp_all [controlFlowTotal, controlFlowTotalList, Node.type]

theorem round2_le_round2 {x y : ℝ} (h : x ≤ y) : round2 x ≤ round2 y := by
  unfold round2
  have h1 : round (100 * x) ≤ round (100 * y) := by
    rw [round_eq, round_eq]
    exact Int.floor_mono (by linarith)
  have h2 : ((round (100 * x) : ℤ) : ℝ) ≤ ((round (100 * y) : ℤ) : ℝ) := by
    exact_mod_cast h1
  linarith

theorem round2_zero : round2 0 = 0 := by
  simp [round2]

theorem round2_hundred : round2 100 = 100 := by
  norm_num [round2]

theorem round2_bounds {y : ℝ} (h0 : 0 ≤ y) (h1 : y ≤ 100) :
    0 ≤ round2 y ∧ round2 y ≤ 100 := by
  constructor
  · have h := round2_le_round2 h0
    rwa [round2_zero] at h
  · have h := round2_le_round2 h1
    rwa [round2_hundred] at h

theorem min_max_swap (x : ℝ) : max 0 (min 100 x) = min 100 (max 0 x) := by
  simp only [min_def, max_def]
  split_ifs <;> first | rfl | linarith

theorem mi_eq_miSpec (v : ℝ) (cc loc : Nat) :
    calculate_maintainability_index v cc loc = miSpecFormula v cc loc := by
  unfold calculate_maintainability_index miSpecFormula clamp
  rw [min_max_swap]

theorem mi_mem_Icc (v : ℝ) (cc loc : Nat) :
    0 ≤ calculate_maintainability_index v cc loc ∧
      calculate_maintainability_index v cc loc ≤ 100 := by
  simp only [calculate_maintainability_index]
  exact round2_bounds
    (le_min (by norm_num) (le_max_left 0 _))
    (min_le_left 100 _)

theorem logb23_gt_one : 1 < Real.logb 2 3 := by
  have h := Real.logb_lt_logb (by norm_num : (1:ℝ) < 2)
    (by norm_num : (0:ℝ) < 2) (by norm_num : (2:ℝ) < 3)
  have h2 : Real.logb 2 2 = 1 := Real.logb_self_eq_one (by norm_num)
  linarith

theorem no_int_is_300_logb23 (k : ℤ) : ((k : ℝ)) ≠ 300 * Real.logb 2 3 := by
  intro hk
  have hL : 1 < Real.logb 2 3 := logb23_gt_one
  have hk300 : (300 : ℝ) < (k : ℝ) := by rw [hk]; nlinarith
  have hkpos : (300 : ℤ) < k := by exact_mod_cast hk300
  have hm : (k.toNat : ℝ) = (k : ℝ) := by
    norm_cast
    omega
  have h2 : (2 : ℝ) ^ (Real.logb 2 3) = 3 :=
    Real.rpow_logb (by norm_num) (by norm_num) (by norm_num)
  have h3 : (2 : ℝ) ^ (Real.logb 2 3 * 300) = (3 : ℝ) ^ (300 : ℕ) := by
    rw [Real.rpow_mul (by norm_num), h2]
    rw [← Real.rpow_natCast (3 : ℝ) 300]
    norm_num
  have h4 : Real.logb 2 3 * 300 = (k.toNat : ℝ) := by
    rw [hm, hk]; ring
  have h5 : (2 : ℝ) ^ (k.toNat : ℕ) = (3 : ℝ) ^ (300 : ℕ) := by
    rw [← Real.rpow_natCast (2 : ℝ) k.toNat, ← h4, h3]
  have h6 : ((2 ^ k.toNat : ℕ) : ℝ) = ((3 ^ 300 : ℕ) : ℝ) := by
    push_cast
    exact h5
  have h7 : (2 : ℕ) ^ k.toNat = 3 ^ 300 := by exact_mod_cast h6
  have h8 : (2 : ℕ) ∣ 3 ^ 300 := by
    rw [← h7]
    exact dvd_pow_self 2 (by omega : k.toNat ≠ 0)
  have h9 : (2 : ℕ) ∣ 3 := Nat.Prime.dvd_of_dvd_pow Nat.prime_two h8
  omega

theorem round2_fixed_imp_int {x : ℝ} (h : round2 x = x) :
    ((round (100 * x) : ℤ) : ℝ) = 100 * x := by
  unfold round2 at h
  field_simp at h
  linarith

theorem round2_3logb23_ne :
    round2 (3 * Real.logb 2 3) ≠ 3 * Real.logb 2 3 := by
  intro h
  have h1 := round2_fixed_imp_int h
  have h2 : ((round (100 * (3 * Real.logb 2 3)) : ℤ) : ℝ) =
      300 * Real.logb 2 3 := by rw [h1]; ring
  exact no_int_is_300_logb23 _ h2

theorem halstead_treeXYZ_vol :
    (calculate_halstead_metrics treeXYZ).1 = 3 * Real.logb 2 3 := by
  have hops : halsteadOperators treeXYZ = [] := by decide
  have hrnds : halsteadOperands treeXYZ = ["x", "y", "z"] := by decide
  have hded : (["x", "y", "z"] : List String).dedup = ["x", "y", "z"] := by
    decide
  simp only [calculate_halstead_metrics, hops, hrnds, hded]
  norm_num

theorem docstringLoop_skip_comments (pre : List Node)
    (hpre : ∀ c ∈ pre, c.type = "comment") (l : List Node) :
    docstringLoop (pre ++ l) = docstringLoop l := by
  induction pre with
  | nil => rfl
  | cons c cs ih =>
    have hc : c.type = "comment" := hpre c (by simp)
    rw [List.cons_append, docstringLoop]
    rw [if_neg (by rw [hc]; decide), if_pos hc]
    exact ih fun d hd => hpre d (by simp [hd])

theorem miSpec_zero : miSpecFormula 0 0 0 = 9987 / 100 := by
  have hmr : max (0:ℝ) 1 = 1 := max_eq_right zero_le_one
  have hmn : (max (0:Nat) 1) = 1 := by norm_num
  unfold miSpecFormula clamp round2
  rw [hmr, hmn, Real.log_one]
  norm_num
  have hr : round ((1707700 : ℝ) / 171) = 9987 := by
    rw [round_eq]
    have h342 : (1707700 : ℝ) / 171 + 1 / 2 = 3415571 / 342 := by norm_num
    rw [h342, Int.floor_eq_iff]
    constructor <;> norm_num
  rw [hr]
  norm_num

/-- Claim C1.  The claim states that for non-blank input the record's
`node_count` is the total number of nodes of the parse tree and
`complexity_score` the number of control-flow nodes, the cursor traversal
visiting every node exactly once.  The code does not satisfy this: the
`else` clause of the inner backtracking loop belongs to a `while True:`
loop, which only ever exits through `break`, so the `else: continue` is dead
and the outer loop stops at the first backtrack.  On the source of the
repository's own test `test_simple_complexity` the cursor visits only 8 of
the 24 nodes and counts 0 of the 1 control-flow nodes (the test expects
`complexity_score == 1`). -/
theorem claim_C1_cursor_loop_divergence :
    (analyze srcCheck treeCheck).node_count = 8 ∧
    (analyze srcCheck treeCheck).complexity_score = 0 ∧
    totalNodes treeCheck = 24 ∧
    controlFlowTotal treeCheck = 1 := by
  rw [analyze_not_blank _ _ (by decide)]
  refine ⟨?_, ?_, by decide, by decide⟩
  · show cursorNodeCount treeCheck = 8
    simp [cursorNodeCount, cursorVisit, treeCheck, tok, identNode]
  · show cursorComplexityScore treeCheck = 0
    simp only [cursorComplexityScore]
    simp [cursorVisit, treeCheck, tok, identNode]
    decide

/-- Claim C2.  The cognitive-complexity walker adds `1 + nesting_depth` for
each control-flow node, where the depth of a node is as recorded by
`nodesWithDepth`: descending into a `block` child increments the depth
exactly when the parent is not an encapsulation node, and all other descents
(in particular into `else_clause`/`elif_clause` children of a conditional)
preserve it.  In particular the source of scenario B has cognitive
complexity 4 (if at depth 0, for at depth 1, else at depth 0). -/
theorem claim_C2_cognitive_nesting :
    (∀ n d, cogTraverse n d =
      (((nodesWithDepth n d).filter fun p => p.1 ∈ CONTROL_FLOW_NODES).map
        fun p => 1 + p.2).sum) ∧
    (analyze srcB treeB).cognitive_complexity = 4 := by
  constructor
  · refine (@node_mutual_ind
      (fun n => ∀ d, cogTraverse n d =
        (((nodesWithDepth n d).filter fun p => p.1 ∈ CONTROL_FLOW_NODES).map
          fun p => 1 + p.2).sum)
      (fun l => ∀ pt d, cogChildren pt l d =
        (((nodesWithDepthList pt l d).filter
          fun p => p.1 ∈ CONTROL_FLOW_NODES).map fun p => 1 + p.2).sum)
      ?_ ?_ ?_).1
    · intro t x cs hQ d
      simp only [cogTraverse, nodesWithDepth, List.filter_cons]
      by_cases ht : t ∈ CONTROL_FLOW_NODES
      · simp [ht, hQ t d]
      · simp [ht, hQ t d]
    · intro pt d
      simp [cogChildren, nodesWithDepthList]
    · intro c cs hP hQ pt d
      have hbr : (if c.type = "block" then
          (if pt ∈ ENCAPSULATION_NODES then cogTraverse c d
           else cogTraverse c (d + 1))
         else cogTraverse c d) = cogTraverse c (childDepth pt c d) := by
        unfold childDepth
        by_cases hb : c.type = "block" <;>
          by_cases he : pt ∈ ENCAPSULATION_NODES <;> simp [hb, he]
      simp only [cogChildren, nodesWithDepthList, List.filter_append,
        List.map_append, List.sum_append, hbr, hP (childDepth pt c d),
        hQ pt d]
  · rw [analyze_not_blank _ _ (by decide)]
    decide

/-- Claim C3, counterexample to the claim as stated.  The claim quantifies
over every input, but for empty input `analyze` returns the hard-coded
sentinel `maintainability_index = 100.0`, while the formula applied to the
record's volume, complexity and line count (all 0, hence all floored to 1)
gives `round2(170.77 * 100 / 171) = 99.87`. -/
theorem claim_C3_counterexample :
    (analyze "" emptyModule).maintainability_index ≠
      miSpecFormula (analyze "" emptyModule).halstead_volume
        (analyze "" emptyModule).complexity_score
        (analyze "" emptyModule).lines_of_code := by
  rw [analyze_blank _ _ (by decide)]
  show (100 : ℝ) ≠ miSpecFormula 0 0 0
  rw [miSpec_zero]
  norm_num

/-- Claim C3, as amended.  For every non-blank input the returned
`maintainability_index` equals
`round2(clamp((171 - 5.2 ln(max(v,1)) - 0.23 max(cc,1) - 16.2 ln(max(loc,1)))
* 100 / 171, 0, 100))` where `v` is the unrounded Halstead volume and `cc`
the record's `complexity_score` (not cognitive complexity); for blank input
it is the sentinel 100; and for every input it lies in [0, 100]. -/
theorem claim_C3_maintainability_index :
    (∀ s r, isBlankSource s = false →
      (analyze s r).maintainability_index =
        miSpecFormula (calculate_halstead_metrics r).1
          (analyze s r).complexity_score (analyze s r).lines_of_code) ∧
    (∀ s r, isBlankSource s = true →
      (analyze s r).maintainability_index = 100) ∧
    (∀ s r, 0 ≤ (analyze s r).maintainability_index ∧
      (analyze s r).maintainability_index ≤ 100) := by
  refine ⟨?_, ?_, ?_⟩
  · intro s r h
    rw [analyze_not_blank s r h]
    exact mi_eq_miSpec _ _ _
  · intro s r h
    rw [analyze_blank s r h]
    rfl
  · intro s r
    cases h : isBlankSource s with
    | false =>
      rw [analyze_not_blank s r h]
      exact mi_mem_Icc _ _ _
    | true =>
      rw [analyze_blank s r h]
      exact ⟨by norm_num [emptyResult], by norm_num [emptyResult]⟩

/-- Claim C3, witness: the amended theorem applied to the concrete source
`"x\ny\nz"` and its parse tree. -/
theorem claim_C3_witness :
    (analyze srcXYZ treeXYZ).maintainability_index =
      miSpecFormula (calculate_halstead_metrics treeXYZ).1
        (analyze srcXYZ treeXYZ).complexity_score
        (analyze srcXYZ treeXYZ).lines_of_code ∧
    0 ≤ (analyze srcXYZ treeXYZ).maintainability_index :=
  ⟨claim_C3_maintainability_index.1 srcXYZ treeXYZ (by decide),
   (claim_C3_maintainability_index.2.2 srcXYZ treeXYZ).1⟩

/-- Claim C4.  For every empty or whitespace-only source string, `analyze`
returns exactly the fixed sentinel record (all counts 0, volume 0,
maintainability 100, debt 0, no description), for every parse tree — i.e.
without consulting the tree at all. -/
theorem claim_C4_blank_sentinel (s : String) (r : Node)
    (h : isBlankSource s = true) :
    analyze s r = ⟨0, 0, 0, 0, 100, 0, 0, none⟩ := by
  rw [analyze_blank s r h]
  rfl

/-- Claim C4, witness at the whitespace-only source `" \n\t"`. -/
theorem claim_C4_witness :
    isBlankSource " \n\t" = true ∧
      analyze " \n\t" emptyModule = ⟨0, 0, 0, 0, 100, 0, 0, none⟩ :=
  ⟨by decide, claim_C4_blank_sentinel " \n\t" emptyModule (by decide)⟩

/-- Claim C5, counterexample to the claim as stated.  The claim says the
record's `lines_of_code` is floored at 1 for any non-empty source and is 0
only for genuinely empty input; but the whitespace-only source `" "` is
non-empty and yields the sentinel with `lines_of_code = 0`. -/
theorem claim_C5_counterexample :
    (analyze " " emptyModule).lines_of_code = 0 ∧ " " ≠ "" := by
  refine ⟨?_, by decide⟩
  rw [analyze_blank _ _ (by decide)]
  rfl

/-- Claim C5, as amended.  For every non-blank source the record's
`lines_of_code` equals the number of lines (splitting on newline) whose
stripped content is non-empty and does not start with `#`, floored at 1;
for empty or whitespace-only input the record's `lines_of_code` is 0. -/
theorem claim_C5_lines_of_code :
    (∀ s r, isBlankSource s = false →
      (analyze s r).lines_of_code =
        max (((splitOnChar '\n' s.data).map String.mk).countP fun line =>
          !(pyStrip line).isEmpty && !(strStarts (pyStrip line) "#")) 1) ∧
    (∀ s r, isBlankSource s = true → (analyze s r).lines_of_code = 0) := by
  constructor
  · intro s r h
    rw [analyze_not_blank s r h]
    rfl
  · intro s r h
    rw [analyze_blank s r h]
    rfl

/-- Claim C5, witness: the amended theorem applied to the four-line source
of `treeCheck` and to the whitespace-only source `" "`. -/
theorem claim_C5_witness :
    (analyze srcCheck treeCheck).lines_of_code =
      max (((splitOnChar '\n' srcCheck.data).map String.mk).countP fun line =>
        !(pyStrip line).isEmpty && !(strStarts (pyStrip line) "#")) 1 ∧
    (analyze " " emptyModule).lines_of_code = 0 :=
  ⟨claim_C5_lines_of_code.1 srcCheck treeCheck (by decide),
   claim_C5_lines_of_code.2 " " emptyModule (by decide)⟩

/-- Claim C6, counterexample to the claim as stated.  The claim says the
record's `halstead_volume` equals `(N1+N2) * log2(n1+n2)` exactly; but
`analyze` stores the volume rounded to two decimals, and on the source
`"x\ny\nz"` the exact volume `3 * log2 3` is not a multiple of `1/100`, so
the stored field differs from it. -/
theorem claim_C6_counterexample :
    (analyze srcXYZ treeXYZ).halstead_volume ≠
      (((halsteadOperators treeXYZ).length +
          (halsteadOperands treeXYZ).length : Nat) : ℝ) *
        Real.logb 2 (((halsteadOperators treeXYZ).dedup.length +
          (halsteadOperands treeXYZ).dedup.length : Nat) : ℝ) := by
  rw [analyze_not_blank _ _ (by decide)]
  show round2 (calculate_halstead_metrics treeXYZ).1 ≠ _
  rw [halstead_treeXYZ_vol]
  have hops : halsteadOperators treeXYZ = [] := by decide
  have hrnds : halsteadOperands treeXYZ = ["x", "y", "z"] := by decide
  have hded : (["x", "y", "z"] : List String).dedup = ["x", "y", "z"] := by
    decide
  rw [hops, hrnds, hded]
  norm_num
  exact round2_3logb23_ne

/-- Claim C6, as amended.  For every non-blank input the record's
`halstead_volume` equals `(N1+N2) * log2(n1+n2)` — with `N1, N2` the lengths
of the collected operator/operand sequences and `n1, n2` their
distinct-value counts, and 0 when the vocabulary `n1+n2` is 0 — rounded to
two decimal places. -/
theorem claim_C6_halstead_volume :
    ∀ s r, isBlankSource s = false →
      (analyze s r).halstead_volume =
        round2 (if (halsteadOperators r).dedup.length +
            (halsteadOperands r).dedup.length = 0 then 0
          else (((halsteadOperators r).length +
              (halsteadOperands r).length : Nat) : ℝ) *
            Real.logb 2 (((halsteadOperators r).dedup.length +
              (halsteadOperands r).dedup.length : Nat) : ℝ)) := by
  intro s r h
  rw [analyze_not_blank s r h]
  show round2 (calculate_halstead_metrics r).1 = _
  by_cases hc : (halsteadOperators r).dedup.length +
      (halsteadOperands r).dedup.length = 0 <;>
    simp [calculate_halstead_metrics, hc]

/-- Claim C6, witness: the amended theorem applied to `"x\ny\nz"` and its
parse tree. -/
theorem claim_C6_witness :
    (analyze srcXYZ treeXYZ).halstead_volume =
      round2 (if (halsteadOperators treeXYZ).dedup.length +
          (halsteadOperands treeXYZ).dedup.length = 0 then 0
        else (((halsteadOperators treeXYZ).length +
            (halsteadOperands treeXYZ).length : Nat) : ℝ) *
          Real.logb 2 (((halsteadOperators treeXYZ).dedup.length +
            (halsteadOperands treeXYZ).dedup.length : Nat) : ℝ)) :=
  claim_C6_halstead_volume srcXYZ treeXYZ (by decide)

/-- Claim C7.  Docstring extraction: leading comment tokens are skipped
without counting as first; if the first remaining top-level statement is an
expression statement, the result is determined by that statement alone
(nothing after it is considered), and when it starts with a string literal
with non-empty text the result is that text with one matching pair of
enclosing quote delimiters stripped and whitespace trimmed; if the first
remaining statement is anything else the result is `none`.  In particular,
the module whose first statement is the docstring of scenario C yields
`some "Handles widgets."`. -/
theorem claim_C7_module_docstring :
    (∀ t x pre first rest,
      (∀ c ∈ pre, c.type = "comment") →
      first.type = "expression_statement" →
      extract_module_docstring (Node.mk t x (pre ++ first :: rest)) =
        docstringOfExprStmt first) ∧
    (∀ t x pre first rest,
      (∀ c ∈ pre, c.type = "comment") →
      first.type ≠ "expression_statement" →
      first.type ≠ "comment" →
      extract_module_docstring (Node.mk t x (pre ++ first :: rest)) = none) ∧
    (∀ sn txt others,
      sn.type = "string" → sn.text = some txt → txt ≠ "" →
      docstringOfExprStmt
        (Node.mk "expression_statement" none (sn :: others)) =
        some (stripDocQuotes txt)) ∧
    extract_module_docstring treeC = some "Handles widgets." := by
  refine ⟨?_, ?_, ?_, by decide⟩
  · intro t x pre first rest hpre hfirst
    show docstringLoop (pre ++ first :: rest) = _
    rw [docstringLoop_skip_comments pre hpre, docstringLoop, if_pos hfirst]
  · intro t x pre first rest hpre h1 h2
    show docstringLoop (pre ++ first :: rest) = _
    rw [docstringLoop_skip_comments pre hpre, docstringLoop, if_neg h1,
      if_neg h2]
  · intro sn txt others hty htx hne
    cases sn with
    | mk st sx scs =>
      simp only [Node.type] at hty
      simp only [Node.text] at htx
      subst hty htx
      show docstringScan (Node.mk "string" (some txt) scs :: others) = _
      rw [docstringScan]
      simp [Node.type, Node.text, hne]

/-- Claim C7, witness: the comment-skipping clause applied to a module with
one leading comment, and the string-extraction clause applied to a
single-quoted docstring. -/
theorem claim_C7_witness :
    extract_module_docstring (Node.mk "module" none
        ([Node.mk "comment" (some "# note") []] ++
          Node.mk "expression_statement" none
            [Node.mk "string" (some "'doc'") []] :: [])) =
      docstringOfExprStmt (Node.mk "expression_statement" none
        [Node.mk "string" (some "'doc'") []]) ∧
    docstringOfExprStmt (Node.mk "expression_statement" none
        [Node.mk "string" (some "'doc'") []]) =
      some (stripDocQuotes "'doc'") :=
  ⟨claim_C7_module_docstring.1 "module" none
      [Node.mk "comment" (some "# note") []] _ [] (by decide) rfl,
   claim_C7_module_docstring.2.2.1 (Node.mk "string" (some "'doc'") [])
      "'doc'" [] rfl rfl (by decide)⟩

/-- Claim C8.  For every input (including the blank-input sentinel), the
returned `sqale_debt_hours` equals `round2(cognitive_complexity * 0.15)`
computed from the `cognitive_complexity` of the same record. -/
theorem claim_C8_sqale_debt (s : String) (r : Node) :
    (analyze s r).sqale_debt_hours =
      round2 (((analyze s r).cognitive_complexity : ℝ) * 0.15) := by
  cases h : isBlankSource s with
  | false =>
    rw [analyze_not_blank s r h]
  | true =>
    rw [analyze_blank s r h]
    show (0 : ℝ) = round2 (((0 : Nat) : ℝ) * 0.15)
    norm_num [round2]

/-- Claim C9.  For every input, the record satisfies
`complexity_score ≤ cognitive_complexity`: the cursor-computed score counts
a subset of the tree's control-flow nodes once each, while the cognitive
walker adds at least 1 for every control-flow node of the whole tree. -/
theorem claim_C9_cognitive_ge_complexity (s : String) (r : Node) :
    (analyze s r).complexity_score ≤ (analyze s r).cognitive_complexity := by
  cases h : isBlankSource s with
  | false =>
    rw [analyze_not_blank s r h]
    show cursorComplexityScore r ≤ calculate_cognitive_complexity r
    have h1 := cursor_filter_le r []
    have h2 := cf_le_cog_all.1 r 0
    simp only [controlFlowTotalList] at h1
    unfold cursorComplexityScore calculate_cognitive_complexity
    omega
  | true =>
    rw [analyze_blank s r h]
    exact Nat.le_refl 0

/-- Claim C10.  For every non-blank input, the record's `halstead_volume`
is the computed volume rounded to two decimals, while
`maintainability_index` is computed from the unrounded volume; and at the
concrete input `"x\ny\nz"` the rounding is strict (the exact volume
`3 * log2 3` is not a multiple of `1/100`), so the index is not in general
recomputable from the record's own `halstead_volume` field. -/
theorem claim_C10_rounding_independence :
    (∀ s r, isBlankSource s = false →
      (analyze s r).halstead_volume =
          round2 (calculate_halstead_metrics r).1 ∧
        (analyze s r).maintainability_index =
          calculate_maintainability_index (calculate_halstead_metrics r).1
            (analyze s r).complexity_score (analyze s r).lines_of_code) ∧
    round2 (calculate_halstead_metrics treeXYZ).1 ≠
      (calculate_halstead_metrics treeXYZ).1 := by
  constructor
  · intro s r h
    rw [analyze_not_blank s r h]
    exact ⟨rfl, rfl⟩
  · rw [halstead_treeXYZ_vol]
    exact round2_3logb23_ne

/-- Claim C10, witness: the first part applied to `"x\ny\nz"` and its parse
tree. -/
theorem claim_C10_witness :
    (analyze srcXYZ treeXYZ).halstead_volume =
        round2 (calculate_halstead_metrics treeXYZ).1 ∧
      (analyze srcXYZ treeXYZ).maintainability_index =
        calculate_maintainability_index (calculate_halstead_metrics treeXYZ).1
          (analyze srcXYZ treeXYZ).complexity_score
          (analyze srcXYZ treeXYZ).lines_of_code :=
  claim_C10_rounding_independence.1 srcXYZ treeXYZ (by decide)
